import Mathlib

/-!
Shallow embedding of `src/putter.go` (package main of superflaco/putter).

Conventions:
* Go byte slices are `List Nat` (one entry per byte); Go `string(b)` on a byte
  slice is `strOfBytes`.
* SHA-256 plus hex encoding is abstracted as a parameter
  `hashHex : List Nat → String` standing for `hex.EncodeToString(sha256(·))`;
  the streaming interface of `crypto/sha256` (`New` / `Write` / `Sum`) is
  modelled by accumulating the written bytes and applying `hashHex` at `Sum`,
  which is exactly that interface's contract (`Sum` returns the digest of all
  bytes written so far).
* `req.Body` is modelled as the trace of results its successive `Read` calls
  return: each trace entry is the returned chunk together with the returned
  error; once the trace is exhausted, further reads return an empty chunk with
  end-of-stream.
* `time.Time` instants are abstracted as `Nat`; the RFC3339 rendering of such
  an abstract instant is its numeral.
* Go `int` values that the program can set negative (`delay`, `variance`,
  `chance`, `goroutinelimit`, the goroutine count) are `Int`; byte counts,
  which are sums of read lengths and hence non-negative, are `Nat`.
-/

namespace Putter

/-- One captured request: the `requestRecord` struct of src/putter.go lines
21-28. -/
structure requestRecord where
  Timestamp : Nat
  Method : String
  Uri : String
  PayloadSize : Nat
  PayloadHash : String
  Payload : List Nat
deriving DecidableEq

/-- Go `string(b)` for a byte slice `b`. -/
def strOfBytes (b : List Nat) : String :=
  String.mk (b.map Char.ofNat)

/-- `requestRecord.String` of src/putter.go lines 30-32. -/
def requestRecord.render (r : requestRecord) : String :=
  toString r.Timestamp ++ " " ++ r.Method ++ " " ++ r.Uri ++ " " ++
    toString r.PayloadSize ++ " " ++ r.PayloadHash ++ "\n\t" ++
    strOfBytes r.Payload ++ "\n--\n"

/-- One iteration of the consumer loop `storeCalls` of src/putter.go lines
63-78, receiving one record `call` from the channel while the shared slice
`recordedCalls` holds the given list.  The Go body is, in order:
line 67 `swapBuf = append(swapBuf, call)` (swapBuf enters each iteration with
length 0, so it becomes `[call]`); line 69 `existingCalls := recordedCalls`;
lines 70-73 the conditional eviction
`recordedCalls = append(swapBuf, existingCalls[1:callCount]...)`; line 74 the
UNCONDITIONAL `recordedCalls = append(swapBuf, existingCalls...)`, which
executes on every iteration and therefore replaces whatever line 72 stored.
Go's `append` value semantics make each assignment's result the concatenation
of the operand element sequences, which is what is modelled here. -/
def storeCallsStep (callCount : Nat) (recordedCalls : List requestRecord)
    (call : requestRecord) : List requestRecord :=
  let swapBuf := [call]
  let existingCalls := recordedCalls
  let recordedCallsAfterIf :=
    if callCount ≤ existingCalls.length then
      swapBuf ++ (existingCalls.drop 1).take (callCount - 1)
    else
      recordedCalls
  let _ := recordedCallsAfterIf
  swapBuf ++ existingCalls

/-- The background consumer drained sequentially over a list of ingested
records (oldest ingestion first), starting from the empty buffer created at
src/putter.go line 53. -/
def storeCalls (callCount : Nat) (calls : List requestRecord) :
    List requestRecord :=
  calls.foldl (storeCallsStep callCount) []

/-- Concrete records used to evaluate the consumer at concrete inputs. -/
def recA : requestRecord := ⟨1, "PUT", "/a", 1, "ha", []⟩

def recB : requestRecord := ⟨2, "PUT", "/b", 1, "hb", []⟩

def recC : requestRecord := ⟨3, "PUT", "/c", 1, "hc", []⟩

def recD : requestRecord := ⟨4, "PUT", "/d", 1, "hd", []⟩

/-- The value line 74 assigns never depends on the eviction branch: one
consumer iteration always prepends the new record and keeps every existing
one. -/
theorem storeCallsStep_eq (callCount : Nat) (acc : List requestRecord)
    (call : requestRecord) : storeCallsStep callCount acc call = call :: acc :=
  rfl

/-- Folding the consumer step reverses the ingestion order onto the
accumulator. -/
theorem storeCalls_foldl_eq (callCount : Nat)
    (calls acc : List requestRecord) :
    List.foldl (storeCallsStep callCount) acc calls = calls.reverse ++ acc := by
  induction calls generalizing acc with
  | nil => simp
  | cons c cs ih =>
      simp [List.foldl, storeCallsStep_eq, ih, List.reverse_cons,
        List.append_assoc]

/-- C1: the claim says the History Buffer never holds more than its capacity
C records.  Evaluating the code at capacity 1 with two sequential ingestions
refutes this: the buffer reaches length 2, because the unconditional append of
src/putter.go line 74 overwrites the eviction computed on line 72, so no
record is ever evicted. -/
theorem storeCalls_capacity_exceeded :
    storeCalls 1 [recA, recB] = [recB, recA] ∧
      1 < (storeCalls 1 [recA, recB]).length := by
  decide

/-- C2: the claim's own scenario — capacity 3, ingest A, B, C, D — evaluated
on the code yields [D, C, B, A] (length 4, record A never evicted), not the
claimed [D, C, B]. -/
theorem storeCalls_scenario_violation :
    storeCalls 3 [recA, recB, recC, recD] = [recD, recC, recB, recA] ∧
      storeCalls 3 [recA, recB, recC, recD] ≠ [recD, recC, recB] := by
  decide

/-- C5: for every capacity C ≥ 1 and every N ≤ C records ingested
sequentially, after the consumer has drained them the buffer holds exactly
those N records, newest-first (most recent ingestion at index 0), with no
eviction. -/
theorem storeCalls_newest_first (C : Nat) (calls : List requestRecord)
    (hC : 1 ≤ C) (hlen : calls.length ≤ C) :
    storeCalls C calls = calls.reverse := by
  unfold storeCalls
  rw [storeCalls_foldl_eq, List.append_nil]

/-- Witness for C5 at capacity 3 with two concrete records. -/
theorem storeCalls_newest_first_witness :
    storeCalls 3 [recA, recB] = [recA, recB].reverse :=
  storeCalls_newest_first 3 [recA, recB] (by decide) (by decide)

/-- A result of one `req.Body.Read` call: end-of-stream or another error
carrying its message (the text `fmt.Fprintln` would print for it). -/
inductive readErr where
  | eof
  | other (msg : String)
deriving DecidableEq

/-- One `Read` call's outcome: the chunk of bytes delivered and the error
returned alongside it. -/
abbrev readResult := List Nat × Option readErr

/-- The bytes a body trace delivers overall: the concatenation of its
chunks. -/
def traceContent (t : List readResult) : List Nat :=
  (t.map Prod.fst).flatten

/-- The streaming read loop of src/putter.go lines 127-137.  Each turn mirrors
one `justRead, readErr = req.Body.Read(buf)` followed by
`bytesRead += int64(justRead)` and `hasher.Write(buf[:justRead])`; the loop
repeats while `justRead > 0 && readErr == nil`.  `hstate` is the byte sequence
written into the hasher so far; a read past the end of the trace returns an
empty chunk with end-of-stream. -/
def streamLoop : List readResult → List Nat → Nat →
    Nat × List Nat × Option readErr
  | [], hstate, bytesRead => (bytesRead, hstate, some readErr.eof)
  | (chunk, err) :: rest, hstate, bytesRead =>
    let bytesRead := bytesRead + chunk.length
    let hstate := hstate ++ chunk
    if 0 < chunk.length ∧ err = none then streamLoop rest hstate bytesRead
    else (bytesRead, hstate, err)

/-- `bytes.Buffer.ReadFrom(req.Body)` as called on src/putter.go line 117: it
reads until an error, appending every delivered chunk to the buffer; an
end-of-stream result (including trace exhaustion) terminates it with a nil
error, any other error is returned with its message.  Result:
(bytes read, buffer contents, error). -/
def readFrom : List readResult → List Nat → Nat →
    Nat × List Nat × Option String
  | [], acc, n => (n, acc, none)
  | (chunk, err) :: rest, acc, n =>
    let acc := acc ++ chunk
    let n := n + chunk.length
    match err with
    | some readErr.eof => (n, acc, none)
    | some (readErr.other m) => (n, acc, some m)
    | none => readFrom rest acc n

/-- Outcome of the digesting block of src/putter.go lines 112-147:
`bytesRead`, the `payload` slice (empty unless the buffered branch ran), the
error message printed on the 500 path (if any), and `hexHash`, the value
`hex.EncodeToString(rawHash)` — the empty string when `rawHash` stayed nil. -/
structure digestOut where
  bytesRead : Nat
  payload : List Nat
  errMsg : Option String
  hexHash : String
deriving DecidableEq

/-- The digesting block of src/putter.go lines 112-147.  In the buffered
branch (lines 115-125) the digest is computed over the buffer contents even
when `ReadFrom` failed; in the streaming branch (lines 126-144) `rawHash`
is assigned only when the loop ended without error or with end-of-stream, so
a non-end-of-stream error leaves it nil and `hexHash` empty. -/
def digestBody (hashHex : List Nat → String) (buffered : Bool)
    (body : List readResult) : digestOut :=
  if buffered then
    let r := readFrom body [] 0
    { bytesRead := r.1, payload := r.2.1, errMsg := r.2.2,
      hexHash := hashHex r.2.1 }
  else
    let r := streamLoop body [] 0
    match r.2.2 with
    | some (readErr.other m) =>
        { bytesRead := r.1, payload := [], errMsg := some m, hexHash := "" }
    | _ =>
        { bytesRead := r.1, payload := [], errMsg := none,
          hexHash := hashHex r.2.1 }

/-- `strconv.Atoi`: an optional sign followed by at least one decimal digit
(the 64-bit range check, irrelevant to every use here, is omitted). -/
def digitsVal (cs : List Char) : Option Nat :=
  if cs ≠ [] ∧ cs.all Char.isDigit then
    some (cs.foldl (fun a c => 10 * a + (c.toNat - 48)) 0)
  else
    none

/-- Go `strconv.Atoi` on a string, yielding its integer value or nothing on a
syntax error. -/
def atoi (s : String) : Option Int :=
  match s.toList with
  | '+' :: rest => (digitsVal rest).map Int.ofNat
  | '-' :: rest => (digitsVal rest).map fun n => -(n : Int)
  | cs => (digitsVal cs).map Int.ofNat

/-- `setFromQueryParam` of src/putter.go lines 80-90, with the `*int` target
made explicit: returns the (possibly updated) target value and the parse
error, if any. -/
def setFromQueryParam (param : String) (val : Int) : Int × Option String :=
  if param ≠ "" then
    match atoi param with
    | none => (val, some ("invalid syntax: " ++ param))
    | some num => (num, none)
  else
    (val, none)

/-- Whether `pat` occurs as a contiguous run inside `s`: Go
`strings.Contains(s, pat)`. -/
def listInfix (pat : List Char) : List Char → Bool
  | [] => pat.isEmpty
  | c :: rest => pat.isPrefixOf (c :: rest) || listInfix pat rest

/-- Go `strings.Contains` on strings. -/
def strContains (s pat : String) : Bool :=
  listInfix pat.toList s.toList

/-- The process-wide mutable variables of src/putter.go lines 34-38 that the
handler reads or writes. -/
structure globals where
  goroutinelimit : Int
  delay : Int
  variance : Int
  chance : Int
  bufferRequest : Bool
  storePayload : Bool
deriving DecidableEq

/-- One inbound request as the handler observes it: method, URL path,
`RequestURI()`, the four `query.Get` results, and the body read trace. -/
structure request where
  method : String
  path : String
  uri : String
  qDelay : String
  qVariance : String
  qChance : String
  qLimit : String
  body : List readResult

/-- The chaos block of src/putter.go lines 158-167.  `draw` models
`random.Intn(100)` (so 0 ≤ draw < 100) and `vdraw` models
`random.Intn(variance)` when `variance > 0`.  Returns the sleep duration in
milliseconds when a stall occurs, `none` otherwise. -/
def chaosStall (delay variance chance : Int) (draw vdraw : Nat) : Option Int :=
  if 0 < chance then
    if (draw : Int) ≤ chance then
      let shift : Int := if 0 < variance then (vdraw : Int) - variance / 2 else 0
      some (delay + shift)
    else
      none
  else
    none

/-- Everything one call of the handler produces: the response status (200
when `WriteHeader` was never called), the successive writes to the response
body, the record sent to `callChan` (if any), the chaos sleep duration (if
any), and the resulting global variables. -/
structure handlerOut where
  status : Nat
  body : List String
  emitted : Option requestRecord
  stall : Option Int
  g : globals
deriving DecidableEq

/-- The echo printed by the configuration branch, src/putter.go line 110. -/
def configEcho (delay variance chance limit : Int) : String :=
  "delay: " ++ toString delay ++ "ms\nvariance: " ++ toString variance ++
    "ms\nchance: " ++ toString chance ++ "%\nGo routine \x27limit\x27: " ++
    toString limit ++ "\n"

/-- The generic-capture branch of `recordRequest`, src/putter.go lines
111-167: digest the body, on a non-end-of-stream read error write a 500 and
the error text (lines 118-122 and 138-141 — note neither error path returns),
then UNCONDITIONALLY send the record to `callChan` (lines 148-155), write
`path received` (line 156), and run the chaos block (lines 158-167). -/
def captureOut (hashHex : List Nat → String) (g : globals) (req : request)
    (now : Nat) (draw vdraw : Nat) : handlerOut :=
  let buffered := g.bufferRequest || g.storePayload
  let d := digestBody hashHex buffered req.body
  let record : requestRecord :=
    { Timestamp := now, Method := req.method, Uri := req.uri,
      PayloadSize := d.bytesRead, PayloadHash := d.hexHash,
      Payload := d.payload }
  match d.errMsg with
  | some m =>
      { status := 500
        body := [m ++ "\n", req.path ++ " received\n"]
        emitted := some record
        stall := chaosStall g.delay g.variance g.chance draw vdraw
        g := g }
  | none =>
      { status := 200
        body := [req.path ++ " received\n"]
        emitted := some record
        stall := chaosStall g.delay g.variance g.chance draw vdraw
        g := g }

/-- `recordRequest` of src/putter.go lines 92-168.  Inputs beyond the request:
the current globals, the shared `recordedCalls` snapshot, the value
`runtime.NumGoroutine()` returns, the capture instant `now`, and the two
random draws.  The branch order mirrors the source's if/else chain: admission
guard (line 94), exact favicon match (line 97), `recordedRequests` substring
(line 100), `configDelay` substring (line 104) — whose four
`setFromQueryParam` calls discard their error returns (lines 106-109) —
else generic capture. -/
def recordRequest (hashHex : List Nat → String) (g : globals)
    (recordedCalls : List requestRecord) (req : request)
    (numGoroutine : Int) (now : Nat) (draw vdraw : Nat) : handlerOut :=
  if 0 < g.goroutinelimit ∧ g.goroutinelimit < numGoroutine then
    { status := 503
      body := ["Hit the Go Routine limit of: " ++ toString g.goroutinelimit
        ++ "\n"]
      emitted := none, stall := none, g := g }
  else if req.path = "/favicon.ico" then
    { status := 404, body := ["No icon for you!\n"], emitted := none,
      stall := none, g := g }
  else if strContains req.path "recordedRequests" then
    { status := 200, body := recordedCalls.map (fun c => c.render ++ "\n"),
      emitted := none, stall := none, g := g }
  else if strContains req.path "configDelay" then
    let delay := (setFromQueryParam req.qDelay g.delay).1
    let variance := (setFromQueryParam req.qVariance g.variance).1
    let chance := (setFromQueryParam req.qChance g.chance).1
    let limit := (setFromQueryParam req.qLimit g.goroutinelimit).1
    let gNew : globals :=
      { g with
        delay := delay
        variance := variance
        chance := chance
        goroutinelimit := limit }
    { status := 200
      body := [configEcho delay variance chance limit]
      emitted := none, stall := none
      g := gNew }
  else
    captureOut hashHex g req now draw vdraw

/-- A concrete stand-in for the abstract digest function. -/
def nullHash : List Nat → String := fun _ => ""

/-- Globals as at process start with a flag combination per fixture. -/
def g0 : globals := ⟨0, 0, 0, 0, false, false⟩

def gBuffered : globals := ⟨0, 0, 0, 0, true, false⟩

def g100 : globals := ⟨0, 5, 0, 100, false, false⟩

def gLim : globals := ⟨1, 0, 0, 0, false, false⟩

/-- The bytes of `"hello"`. -/
def helloBytes : List Nat := [104, 101, 108, 108, 111]

/-- A body whose single read fails with a non-end-of-stream error after
delivering two bytes. -/
def errTrace : List readResult := [([104, 105], some (readErr.other "read failed"))]

def reqErr : request := ⟨"PUT", "/x", "/x", "", "", "", "", errTrace⟩

def reqHello : request := ⟨"PUT", "/y", "/y", "", "", "", "", [(helloBytes, none)]⟩

def reqBadDelay : request :=
  ⟨"GET", "/configDelay", "/configDelay?delay=abc", "abc", "", "", "", []⟩

def reqCfg : request :=
  ⟨"GET", "/configDelay", "/configDelay?delay=50&chance=xyz&limit=2", "50", "",
    "xyz", "2", []⟩

def reqFav : request := ⟨"GET", "/favicon.ico", "/favicon.ico", "", "", "", "", []⟩

def reqXFav : request :=
  ⟨"GET", "/x/favicon.ico", "/x/favicon.ico", "", "", "", "", []⟩

/-- Streaming-mode read trace delivering `[1, 2]` then `[3]`. -/
def tS : List readResult := [([1, 2], none), ([3], none)]

/-- Buffered-mode read trace delivering `[1, 2, 3]` at once. -/
def tB : List readResult := [([1, 2, 3], none)]

/-- When none of the four special branches fires, the handler is the capture
branch. -/
theorem recordRequest_capture (hashHex : List Nat → String) (g : globals)
    (recorded : List requestRecord) (req : request) (ng : Int) (now : Nat)
    (draw vdraw : Nat)
    (hguard : ¬(0 < g.goroutinelimit ∧ g.goroutinelimit < ng))
    (hfav : ¬req.path = "/favicon.ico")
    (hrec : ¬strContains req.path "recordedRequests" = true)
    (hcfg : ¬strContains req.path "configDelay" = true) :
    recordRequest hashHex g recorded req ng now draw vdraw =
      captureOut hashHex g req now draw vdraw := by
  unfold recordRequest
  rw [if_neg hguard, if_neg hfav, if_neg hrec, if_neg hcfg]

/-- Both error branches of the capture path emit the same record. -/
theorem captureOut_emitted (hashHex : List Nat → String) (g : globals)
    (req : request) (now : Nat) (draw vdraw : Nat) :
    (captureOut hashHex g req now draw vdraw).emitted =
      some
        { Timestamp := now
          Method := req.method
          Uri := req.uri
          PayloadSize :=
            (digestBody hashHex (g.bufferRequest || g.storePayload) req.body).bytesRead
          PayloadHash :=
            (digestBody hashHex (g.bufferRequest || g.storePayload) req.body).hexHash
          Payload :=
            (digestBody hashHex (g.bufferRequest || g.storePayload) req.body).payload } := by
  simp only [captureOut]
  split <;> rfl

/-- Both error branches of the capture path run the chaos block. -/
theorem captureOut_stall (hashHex : List Nat → String) (g : globals)
    (req : request) (now : Nat) (draw vdraw : Nat) :
    (captureOut hashHex g req now draw vdraw).stall =
      chaosStall g.delay g.variance g.chance draw vdraw := by
  simp only [captureOut]
  split <;> rfl

/-- The capture path answers 500 or 200, never 503 or 404. -/
theorem captureOut_status (hashHex : List Nat → String) (g : globals)
    (req : request) (now : Nat) (draw vdraw : Nat) :
    (captureOut hashHex g req now draw vdraw).status = 500 ∨
      (captureOut hashHex g req now draw vdraw).status = 200 := by
  simp only [captureOut]
  rcases h : (digestBody hashHex (g.bufferRequest || g.storePayload) req.body).errMsg with _ | m
  · exact Or.inr rfl
  · exact Or.inl rfl

/-- On a trace of error-free, non-empty reads the streaming loop counts and
hashes exactly the delivered bytes and ends at end-of-stream. -/
theorem streamLoop_clean (t : List readResult)
    (h : ∀ r ∈ t, r.2 = none ∧ r.1 ≠ []) (acc : List Nat) (n : Nat) :
    streamLoop t acc n =
      (n + (traceContent t).length, acc ++ traceContent t, some readErr.eof) := by
  induction t generalizing acc n with
  | nil => simp [streamLoop, traceContent]
  | cons r rest ih =>
      obtain ⟨c, e⟩ := r
      obtain ⟨he, hc⟩ := h (c, e) (List.mem_cons_self _ _)
      have hrest : ∀ x ∈ rest, x.2 = none ∧ x.1 ≠ [] := fun x hx =>
        h x (List.mem_cons_of_mem _ hx)
      have hlen : 0 < c.length := List.length_pos.mpr hc
      simp only at he
      subst he
      simp only [streamLoop]
      rw [if_pos ⟨hlen, True.intro⟩, ih hrest]
      simp [traceContent, Nat.add_assoc, List.append_assoc]

/-- On a trace of error-free reads `ReadFrom` buffers exactly the delivered
bytes and reports no error. -/
theorem readFrom_clean (t : List readResult) (h : ∀ r ∈ t, r.2 = none)
    (acc : List Nat) (n : Nat) :
    readFrom t acc n = (n + (traceContent t).length, acc ++ traceContent t, none) := by
  induction t generalizing acc n with
  | nil => simp [readFrom, traceContent]
  | cons r rest ih =>
      obtain ⟨c, e⟩ := r
      have he := h (c, e) (List.mem_cons_self _ _)
      have hrest : ∀ x ∈ rest, x.2 = none := fun x hx =>
        h x (List.mem_cons_of_mem _ hx)
      simp only at he
      subst he
      simp only [readFrom]
      rw [ih hrest]
      simp [traceContent, Nat.add_assoc, List.append_assoc]

/-- Streaming digest of an error-free body: the digest of the whole content,
the content's length as the byte count, no payload, no error. -/
theorem digestBody_streaming_clean (hashHex : List Nat → String)
    (t : List readResult) (h : ∀ r ∈ t, r.2 = none ∧ r.1 ≠ []) :
    digestBody hashHex false t =
      ⟨(traceContent t).length, [], none, hashHex (traceContent t)⟩ := by
  unfold digestBody
  rw [streamLoop_clean t h [] 0]
  simp

/-- Buffered digest of an error-free body: the digest of the whole content,
which is also retained as the payload. -/
theorem digestBody_buffered_clean (hashHex : List Nat → String)
    (t : List readResult) (h : ∀ r ∈ t, r.2 = none) :
    digestBody hashHex true t =
      ⟨(traceContent t).length, traceContent t, none, hashHex (traceContent t)⟩ := by
  unfold digestBody
  rw [readFrom_clean t h [] 0]
  simp

/-- The streaming branch never retains a payload, error or not. -/
theorem digestBody_streaming_payload (hashHex : List Nat → String)
    (t : List readResult) : (digestBody hashHex false t).payload = [] := by
  unfold digestBody
  simp only [Bool.false_eq_true, if_false]
  split <;> rfl

/-- The buffered branch retains exactly the bytes `ReadFrom` buffered. -/
theorem digestBody_buffered_payload (hashHex : List Nat → String)
    (t : List readResult) :
    (digestBody hashHex true t).payload = (readFrom t [] 0).2.1 := by
  unfold digestBody
  simp

/-- C6: for every digest function and every pair of error-free read traces
delivering the same body content — the streaming one in non-empty chunks of
at most 32 KiB — the streaming path and the buffered path produce identical
digests and identical consumed-byte counts. -/
theorem digest_streaming_buffered_agree (hashHex : List Nat → String)
    (t1 t2 : List readResult)
    (h1 : ∀ r ∈ t1, r.2 = none ∧ r.1 ≠ [] ∧ r.1.length ≤ 0x8000)
    (h2 : ∀ r ∈ t2, r.2 = none)
    (hsame : traceContent t1 = traceContent t2) :
    (digestBody hashHex false t1).hexHash = (digestBody hashHex true t2).hexHash ∧
      (digestBody hashHex false t1).bytesRead =
        (digestBody hashHex true t2).bytesRead := by
  rw [digestBody_streaming_clean hashHex t1
      (fun r hr => ⟨(h1 r hr).1, (h1 r hr).2.1⟩),
    digestBody_buffered_clean hashHex t2 h2, hsame]
  exact ⟨rfl, rfl⟩

/-- Witness for C6: the streaming trace `[1,2] then [3]` against the buffered
trace `[1,2,3]`, with the digest function instantiated concretely. -/
theorem digest_streaming_buffered_agree_witness :
    (digestBody strOfBytes false tS).hexHash =
        (digestBody strOfBytes true tB).hexHash ∧
      (digestBody strOfBytes false tS).bytesRead =
        (digestBody strOfBytes true tB).bytesRead :=
  digest_streaming_buffered_agree strOfBytes tS tB (by decide) (by decide)
    (by decide)

/-- C3: refuted on the code as written.  The claim says no record is emitted
for a request whose body read failed with a non-EOF error; evaluating the
handler on a streaming-mode request whose read fails mid-stream shows the 500
response and error text as claimed, but a record IS still sent to the history
channel (the error paths at src/putter.go lines 118-122 and 138-141 do not
return, so lines 148-155 run), carrying the partial byte count and an empty
hash. -/
theorem recordRequest_error_still_records :
    (recordRequest nullHash g0 [] reqErr 1 0 0 0).status = 500 ∧
      (recordRequest nullHash g0 [] reqErr 1 0 0 0).body =
        ["read failed\n", "/x received\n"] ∧
      (recordRequest nullHash g0 [] reqErr 1 0 0 0).emitted =
        some ⟨0, "PUT", "/x", 2, "", []⟩ := by
  decide

/-- C3 amended: for every request on the generic capture path whose body read
fails with a non-EOF error, in both digesting modes, the handler responds 500
with the error text — and still emits a RequestRecord to the history channel
(partial records ARE stored). -/
theorem recordRequest_read_error_behavior (hashHex : List Nat → String)
    (g : globals) (recorded : List requestRecord) (req : request) (ng : Int)
    (now : Nat) (draw vdraw : Nat) (m : String)
    (hguard : ¬(0 < g.goroutinelimit ∧ g.goroutinelimit < ng))
    (hfav : ¬req.path = "/favicon.ico")
    (hrec : ¬strContains req.path "recordedRequests" = true)
    (hcfg : ¬strContains req.path "configDelay" = true)
    (herr : (digestBody hashHex (g.bufferRequest || g.storePayload) req.body).errMsg
      = some m) :
    (recordRequest hashHex g recorded req ng now draw vdraw).status = 500 ∧
      (recordRequest hashHex g recorded req ng now draw vdraw).body =
        [m ++ "\n", req.path ++ " received\n"] ∧
      (recordRequest hashHex g recorded req ng now draw vdraw).emitted.isSome
        = true := by
  rw [recordRequest_capture hashHex g recorded req ng now draw vdraw hguard
    hfav hrec hcfg]
  simp [captureOut, herr]

/-- Witness for C3 amended at the concrete failing read. -/
theorem recordRequest_read_error_behavior_witness :
    (recordRequest nullHash g0 [] reqErr 1 0 0 0).status = 500 ∧
      (recordRequest nullHash g0 [] reqErr 1 0 0 0).body =
        ["read failed" ++ "\n", reqErr.path ++ " received\n"] ∧
      (recordRequest nullHash g0 [] reqErr 1 0 0 0).emitted.isSome = true :=
  recordRequest_read_error_behavior nullHash g0 [] reqErr 1 0 0 0 "read failed"
    (by decide) (by decide) (by decide) (by decide) (by decide)

/-- C4: refuted on the code as written.  The claim says the record's payload
field is empty unless payload retention (`storePayload`) is enabled; with
`bufferRequest = true` and `storePayload = false` the buffered branch runs
(src/putter.go line 115 tests `bufferRequest || storePayload`) and line 123
keeps the body, so the emitted record retains the full raw body. -/
theorem recordRequest_buffered_retains_payload :
    gBuffered.storePayload = false ∧
      (recordRequest nullHash gBuffered [] reqHello 1 0 0 0).emitted.map
        requestRecord.Payload = some helloBytes ∧
      helloBytes ≠ [] := by
  decide

/-- C4 amended: for every captured request, the emitted record's payload is
empty unless buffered digesting is active (`bufferRequest || storePayload`);
when it is active — in particular in buffered mode with retention disabled —
the payload is the raw body text that `ReadFrom` buffered. -/
theorem recordRequest_payload_retention (hashHex : List Nat → String)
    (g : globals) (recorded : List requestRecord) (req : request) (ng : Int)
    (now : Nat) (draw vdraw : Nat)
    (hguard : ¬(0 < g.goroutinelimit ∧ g.goroutinelimit < ng))
    (hfav : ¬req.path = "/favicon.ico")
    (hrec : ¬strContains req.path "recordedRequests" = true)
    (hcfg : ¬strContains req.path "configDelay" = true) :
    ((g.bufferRequest || g.storePayload) = false →
      (recordRequest hashHex g recorded req ng now draw vdraw).emitted.map
        requestRecord.Payload = some []) ∧
    ((g.bufferRequest || g.storePayload) = true →
      (recordRequest hashHex g recorded req ng now draw vdraw).emitted.map
        requestRecord.Payload = some (readFrom req.body [] 0).2.1) := by
  rw [recordRequest_capture hashHex g recorded req ng now draw vdraw hguard
    hfav hrec hcfg]
  constructor
  · intro hb
    rw [captureOut_emitted, hb]
    simp [digestBody_streaming_payload]
  · intro hb
    rw [captureOut_emitted, hb]
    simp [digestBody_buffered_payload]

/-- Witness for C4 amended: streaming flags leave the payload empty, buffered
flags retain the body. -/
theorem recordRequest_payload_retention_witness :
    (recordRequest nullHash g0 [] reqHello 1 0 0 0).emitted.map
        requestRecord.Payload = some [] ∧
      (recordRequest nullHash gBuffered [] reqHello 1 0 0 0).emitted.map
        requestRecord.Payload = some (readFrom reqHello.body [] 0).2.1 :=
  ⟨(recordRequest_payload_retention nullHash g0 [] reqHello 1 0 0 0
      (by decide) (by decide) (by decide) (by decide)).1 (by decide),
    (recordRequest_payload_retention nullHash gBuffered [] reqHello 1 0 0 0
      (by decide) (by decide) (by decide) (by decide)).2 (by decide)⟩

/-- The value `setFromQueryParam` leaves in its target: the parsed integer
when the parameter parses, the old value when it is absent or malformed. -/
theorem setFromQueryParam_fst (p : String) (v : Int) :
    (setFromQueryParam p v).1 = (atoi p).getD v := by
  unfold setFromQueryParam
  by_cases hp : p = ""
  · subst hp
    have h0 : atoi "" = none := by decide
    simp [h0]
  · rw [if_pos hp]
    cases h : atoi p <;> simp [h]

/-- C7: refuted on the code as written.  The claim says a non-integer query
parameter yields an error that is surfaced to the caller; the four
`setFromQueryParam` calls of src/putter.go lines 106-109 discard their error
returns, so with `delay=abc` a parse error arises yet the response body is
exactly the configuration echo (unchanged values), with nothing about the
error, and status 200. -/
theorem configDelay_error_not_surfaced :
    (setFromQueryParam "abc" 0).2.isSome = true ∧
      (recordRequest nullHash g0 [] reqBadDelay 1 0 0 0).body =
        [configEcho 0 0 0 0] ∧
      (recordRequest nullHash g0 [] reqBadDelay 1 0 0 0).status = 200 := by
  decide

/-- C7 amended: on a configuration path, each of the four query parameters
that is present and parses as an integer overwrites its Chaos Policy field; a
non-integer (or absent) value leaves its field unchanged and the error is
silently discarded — never surfaced to the caller — without blocking the
other parameters or failing the request; the response echoes the resulting
four values and nothing else, and no record is emitted. -/
theorem configDelay_applies_params (hashHex : List Nat → String) (g : globals)
    (recorded : List requestRecord) (req : request) (ng : Int) (now : Nat)
    (draw vdraw : Nat)
    (hguard : ¬(0 < g.goroutinelimit ∧ g.goroutinelimit < ng))
    (hfav : ¬req.path = "/favicon.ico")
    (hrec : ¬strContains req.path "recordedRequests" = true)
    (hcfg : strContains req.path "configDelay" = true) :
    (recordRequest hashHex g recorded req ng now draw vdraw).g.delay =
        (atoi req.qDelay).getD g.delay ∧
      (recordRequest hashHex g recorded req ng now draw vdraw).g.variance =
        (atoi req.qVariance).getD g.variance ∧
      (recordRequest hashHex g recorded req ng now draw vdraw).g.chance =
        (atoi req.qChance).getD g.chance ∧
      (recordRequest hashHex g recorded req ng now draw vdraw).g.goroutinelimit =
        (atoi req.qLimit).getD g.goroutinelimit ∧
      (recordRequest hashHex g recorded req ng now draw vdraw).status = 200 ∧
      (recordRequest hashHex g recorded req ng now draw vdraw).body =
        [configEcho ((atoi req.qDelay).getD g.delay)
          ((atoi req.qVariance).getD g.variance)
          ((atoi req.qChance).getD g.chance)
          ((atoi req.qLimit).getD g.goroutinelimit)] ∧
      (recordRequest hashHex g recorded req ng now draw vdraw).emitted = none := by
  unfold recordRequest
  rw [if_neg hguard, if_neg hfav, if_neg hrec, if_pos hcfg]
  refine ⟨?_, ?_, ?_, ?_, ?_, ?_, ?_⟩ <;> simp [setFromQueryParam_fst]

/-- Witness for C7 amended: `delay=50` parses and is applied, `chance=xyz`
fails and leaves the chance unchanged, `limit=2` is still applied. -/
theorem configDelay_applies_params_witness :
    (recordRequest nullHash g0 [] reqCfg 1 0 0 0).g.delay =
        (atoi reqCfg.qDelay).getD g0.delay ∧
      (recordRequest nullHash g0 [] reqCfg 1 0 0 0).g.variance =
        (atoi reqCfg.qVariance).getD g0.variance ∧
      (recordRequest nullHash g0 [] reqCfg 1 0 0 0).g.chance =
        (atoi reqCfg.qChance).getD g0.chance ∧
      (recordRequest nullHash g0 [] reqCfg 1 0 0 0).g.goroutinelimit =
        (atoi reqCfg.qLimit).getD g0.goroutinelimit ∧
      (recordRequest nullHash g0 [] reqCfg 1 0 0 0).status = 200 ∧
      (recordRequest nullHash g0 [] reqCfg 1 0 0 0).body =
        [configEcho ((atoi reqCfg.qDelay).getD g0.delay)
          ((atoi reqCfg.qVariance).getD g0.variance)
          ((atoi reqCfg.qChance).getD g0.chance)
          ((atoi reqCfg.qLimit).getD g0.goroutinelimit)] ∧
      (recordRequest nullHash g0 [] reqCfg 1 0 0 0).emitted = none :=
  configDelay_applies_params nullHash g0 [] reqCfg 1 0 0 0 (by decide)
    (by decide) (by decide) (by decide)

/-- C8: for every captured request, with `chance ≤ 0` no chaos stall ever
occurs, whatever the delay and variance; with `chance = 100` a stall occurs
on every request, since the comparison `chance >= random.Intn(100)` always
succeeds for a draw in [0,100). -/
theorem chaos_boundary (hashHex : List Nat → String) (g : globals)
    (recorded : List requestRecord) (req : request) (ng : Int) (now : Nat)
    (draw vdraw : Nat)
    (hguard : ¬(0 < g.goroutinelimit ∧ g.goroutinelimit < ng))
    (hfav : ¬req.path = "/favicon.ico")
    (hrec : ¬strContains req.path "recordedRequests" = true)
    (hcfg : ¬strContains req.path "configDelay" = true)
    (hdraw : draw < 100) :
    (g.chance ≤ 0 →
      (recordRequest hashHex g recorded req ng now draw vdraw).stall = none) ∧
    (g.chance = 100 →
      ((recordRequest hashHex g recorded req ng now draw vdraw).stall).isSome
        = true) := by
  rw [recordRequest_capture hashHex g recorded req ng now draw vdraw hguard
    hfav hrec hcfg, captureOut_stall]
  constructor
  · intro hc
    unfold chaosStall
    rw [if_neg (by omega)]
  · intro hc
    unfold chaosStall
    rw [if_pos (by omega), if_pos (by omega)]
    rfl

/-- Witness for C8: chance 0 never stalls, chance 100 stalls at draw 7. -/
theorem chaos_boundary_witness :
    (recordRequest nullHash g0 [] reqHello 1 0 7 0).stall = none ∧
      ((recordRequest nullHash g100 [] reqHello 1 0 7 0).stall).isSome = true :=
  ⟨(chaos_boundary nullHash g0 [] reqHello 1 0 7 0 (by decide) (by decide)
      (by decide) (by decide) (by decide)).1 (by decide),
    (chaos_boundary nullHash g100 [] reqHello 1 0 7 0 (by decide) (by decide)
      (by decide) (by decide) (by decide)).2 (by decide)⟩

/-- C9: with `goroutinelimit ≤ 0` the Admission Guard never rejects (the
response is never 503); with a positive limit exceeded by the live goroutine
count the request is refused immediately with 503 and a body naming the
configured limit, and no record, no stall, and no digesting output occur for
it. -/
theorem admission_guard (hashHex : List Nat → String) (g : globals)
    (recorded : List requestRecord) (req : request) (ng : Int) (now : Nat)
    (draw vdraw : Nat) :
    (g.goroutinelimit ≤ 0 →
      (recordRequest hashHex g recorded req ng now draw vdraw).status ≠ 503) ∧
    (0 < g.goroutinelimit → g.goroutinelimit < ng →
      (recordRequest hashHex g recorded req ng now draw vdraw).status = 503 ∧
      (recordRequest hashHex g recorded req ng now draw vdraw).body =
        ["Hit the Go Routine limit of: " ++ toString g.goroutinelimit ++ "\n"] ∧
      (recordRequest hashHex g recorded req ng now draw vdraw).emitted = none ∧
      (recordRequest hashHex g recorded req ng now draw vdraw).stall = none) := by
  constructor
  · intro hle
    unfold recordRequest
    rw [if_neg (by intro h; omega)]
    split_ifs
    · simp
    · simp
    · simp
    · rcases captureOut_status hashHex g req now draw vdraw with h | h <;>
        simp [h]
  · intro h1 h2
    unfold recordRequest
    rw [if_pos ⟨h1, h2⟩]
    exact ⟨rfl, rfl, rfl, rfl⟩

/-- Witness for C9: limit 0 admits; limit 1 with 5 live goroutines refuses
with 503 and no record. -/
theorem admission_guard_witness :
    (recordRequest nullHash g0 [] reqHello 1 0 0 0).status ≠ 503 ∧
      (recordRequest nullHash gLim [] reqHello 5 0 0 0).status = 503 ∧
      (recordRequest nullHash gLim [] reqHello 5 0 0 0).emitted = none :=
  ⟨(admission_guard nullHash g0 [] reqHello 1 0 0 0).1 (by decide),
    ((admission_guard nullHash gLim [] reqHello 5 0 0 0).2 (by decide)
      (by decide)).1,
    ((admission_guard nullHash gLim [] reqHello 5 0 0 0).2 (by decide)
      (by decide)).2.2.1⟩

/-- C10: when the admission guard does not reject, the fixed 404 favicon
response is produced exactly when the request path equals "/favicon.ico"; a
path merely containing "favicon.ico" as a proper substring, such as
"/x/favicon.ico", is not matched by that route and (containing neither
routing substring) is handled by generic capture, which emits a record. -/
theorem favicon_exact_match (hashHex : List Nat → String) (g : globals)
    (recorded : List requestRecord) (req : request) (ng : Int) (now : Nat)
    (draw vdraw : Nat)
    (hguard : ¬(0 < g.goroutinelimit ∧ g.goroutinelimit < ng)) :
    ((recordRequest hashHex g recorded req ng now draw vdraw).status = 404 ↔
      req.path = "/favicon.ico") ∧
    (req.path = "/x/favicon.ico" →
      (recordRequest hashHex g recorded req ng now draw vdraw).emitted.isSome
        = true) := by
  constructor
  · constructor
    · intro h404
      by_contra hfav
      revert h404
      unfold recordRequest
      rw [if_neg hguard, if_neg hfav]
      split_ifs
      · simp
      · simp
      · rcases captureOut_status hashHex g req now draw vdraw with h | h <;>
          simp [h]
    · intro hfav
      unfold recordRequest
      rw [if_neg hguard, if_pos hfav]
  · intro hx
    unfold recordRequest
    rw [if_neg hguard, if_neg (by rw [hx]; decide),
      if_neg (by rw [hx]; decide), if_neg (by rw [hx]; decide),
      captureOut_emitted]
    rfl

/-- Witness for C10: the exact path gets the 404, the superstring path is
captured. -/
theorem favicon_exact_match_witness :
    ((recordRequest nullHash g0 [] reqFav 1 0 0 0).status = 404 ↔
        reqFav.path = "/favicon.ico") ∧
      (recordRequest nullHash g0 [] reqXFav 1 0 0 0).emitted.isSome = true :=
  ⟨(favicon_exact_match nullHash g0 [] reqFav 1 0 0 0 (by decide)).1,
    (favicon_exact_match nullHash g0 [] reqXFav 1 0 0 0 (by decide)).2 rfl⟩

end Putter
